import Mathlib

/-!
Shallow embedding of `src/libgreen/context.rs`: the context-switching core of
the green-thread runtime (Context, per-architecture register files, the
call-frame builders, `align_down`, `mut_offset`, and the `swap` operation with
its thread-local guard-range publication).

Machine words (`uint`, pointers) are modelled as `Nat`; the word width `W`
(32 on x86/arm/mips, 64 on x86_64) is an explicit parameter and wrap-around
arithmetic is made explicit with `% 2^W`.  Memory is a function `Nat → Nat`
from byte addresses to the word stored there.
-/

namespace GreenContext

/-- Embedding of `mut_offset<T>(ptr, count)`:
`(ptr as int + count * (size_of::<T>() as int)) as *mut T`, i.e. signed
pointer arithmetic that wraps modulo `2^W`.  `size` is `size_of::<T>()`
(4 or 8 bytes for `uint`). -/
def mut_offset (W size : Nat) (ptr : Nat) (count : Int) : Nat :=
  (((ptr : Int) + count * (size : Int)) % ((2 : Int) ^ W)).toNat

/-- Embedding of `align_down(sp)`: `sp & !(16 - 1)` on a `W`-bit `uint`;
the complement of `15` in `W` bits is `2^W - 16`. -/
def align_down (W : Nat) (sp : Nat) : Nat :=
  sp &&& (2 ^ W - 16)

/-- One store `*addr = v` into byte-addressed word memory. -/
def writeMem (mem : Nat → Nat) (addr v : Nat) : Nat → Nat :=
  fun a => if a = addr then v else mem a

/-! ### Register files, one per architecture -/

/-- `#[cfg(target_arch = "x86")] struct Registers` — named 32-bit slots. -/
structure RegistersX86 where
  eax : Nat
  ebx : Nat
  ecx : Nat
  edx : Nat
  ebp : Nat
  esi : Nat
  edi : Nat
  esp : Nat
  cs : Nat
  ds : Nat
  ss : Nat
  es : Nat
  fs : Nat
  gs : Nat
  eflags : Nat
  eip : Nat
deriving Repr, DecidableEq

/-- `fn new_regs()` for x86: all slots zero. -/
def new_regs_x86 : RegistersX86 :=
  { eax := 0, ebx := 0, ecx := 0, edx := 0
    ebp := 0, esi := 0, edi := 0, esp := 0
    cs := 0, ds := 0, ss := 0, es := 0, fs := 0, gs := 0
    eflags := 0, eip := 0 }

/-- Redefinition from `rt/arch/x86_64/regs.h`: index of the first-argument
slot in the x86_64 register array. -/
def RUSTRT_ARG0 : Nat := 3

/-- Redefinition from `rt/arch/x86_64/regs.h`: index of the stack-pointer
slot in the x86_64 register array. -/
def RUSTRT_RSP : Nat := 1

/-- Redefinition from `rt/arch/x86_64/regs.h`: index of the
instruction-pointer slot in the x86_64 register array. -/
def RUSTRT_IP : Nat := 8

/-- Redefinition from `rt/arch/x86_64/regs.h`: index of the base-pointer
slot in the x86_64 register array. -/
def RUSTRT_RBP : Nat := 2

/-- `#[cfg(not(windows), target_arch = "x86_64")] fn new_regs()`:
`~([0, .. 22])`. -/
def new_regs_x86_64 : List Nat := List.replicate 22 0

/-- `#[cfg(windows, target_arch = "x86_64")] fn new_regs()`:
`~([0, .. 34])`. -/
def new_regs_x86_64_windows : List Nat := List.replicate 34 0

/-- `#[cfg(target_arch = "arm")] fn new_regs()`: `~([0, .. 32])`. -/
def new_regs_arm : List Nat := List.replicate 32 0

/-- `#[cfg(target_arch = "mips")] fn new_regs()`: `~([0, .. 32])`. -/
def new_regs_mips : List Nat := List.replicate 32 0

/-! ### Call-frame builders, one per architecture

Each returns the updated register file together with the updated memory.
-/

/-- `initialize_call_frame` for 32-bit x86 (`W = 32`, word size 4):
align the stack down to 16 bytes, push the argument and then a zero
sentinel return address, and set `esp`, `eip`, `ebp`. -/
def initialize_call_frame_x86 (regs : RegistersX86) (fptr arg sp : Nat)
    (mem : Nat → Nat) : RegistersX86 × (Nat → Nat) :=
  let sp := align_down 32 sp
  let sp := mut_offset 32 4 sp (-4)
  let mem := writeMem mem sp arg
  let sp := mut_offset 32 4 sp (-1)
  let mem := writeMem mem sp 0
  ({ regs with esp := sp, eip := fptr, ebp := 0 }, mem)

/-- `initialize_call_frame` for x86_64 (`W = 64`, word size 8), shared by
the windows and non-windows register layouts: align the stack down to 16
bytes, write a zero sentinel return address, and set the argument,
stack-pointer, instruction-pointer and base-pointer slots by index. -/
def initialize_call_frame_x86_64 (regs : List Nat) (fptr arg sp : Nat)
    (mem : Nat → Nat) : List Nat × (Nat → Nat) :=
  let sp := align_down 64 sp
  let sp := mut_offset 64 8 sp (-1)
  let mem := writeMem mem sp 0
  let regs := regs.set RUSTRT_ARG0 arg
  let regs := regs.set RUSTRT_RSP sp
  let regs := regs.set RUSTRT_IP fptr
  let regs := regs.set RUSTRT_RBP 0
  (regs, mem)

/-- `initialize_call_frame` for 32-bit ARM (`W = 32`, word size 4):
align down, reserve two words (8-byte aligned sp), write the zero
sentinel, and set r0 (argument), r13 (sp) and r14 (lr = entry). -/
def initialize_call_frame_arm (regs : List Nat) (fptr arg sp : Nat)
    (mem : Nat → Nat) : List Nat × (Nat → Nat) :=
  let sp := align_down 32 sp
  let sp := mut_offset 32 4 sp (-2)
  let mem := writeMem mem sp 0
  let regs := regs.set 0 arg
  let regs := regs.set 13 sp
  let regs := regs.set 14 fptr
  (regs, mem)

/-- `initialize_call_frame` for 32-bit MIPS (`W = 32`, word size 4):
align down, reserve two words, write the zero sentinel, and set r4
(argument), r29 (sp), r25 and r31 (both the entry address). -/
def initialize_call_frame_mips (regs : List Nat) (fptr arg sp : Nat)
    (mem : Nat → Nat) : List Nat × (Nat → Nat) :=
  let sp := align_down 32 sp
  let sp := mut_offset 32 4 sp (-2)
  let mem := writeMem mem sp 0
  let regs := regs.set 4 arg
  let regs := regs.set 29 sp
  let regs := regs.set 25 fptr
  let regs := regs.set 31 fptr
  (regs, mem)

/-! ### Context, thread state and the swap operation -/

/-- `pub struct Context`.  `P` is the type of the boxed entry procedure
(opaque at this level), `R` the architecture's register-file type. -/
structure Context (P R : Type) where
  start : Option P
  regs : R
  stack_bounds : Option (Nat × Nat)

/-- Per-OS-thread state touched by `swap`: the live machine register file
and the thread-local guard range `(lo, hi)` written by
`stack::record_stack_bounds`. -/
structure ThreadState (R : Type) where
  machine_regs : R
  guard : Nat × Nat

/-- Observable events of one call to `Context::swap`, in program order. -/
inductive SwapEvent where
  | record_stack_bounds (lo hi : Nat)
  | rust_swap_registers
deriving Repr, DecidableEq

/-- `Context::empty()`: zeroed register file, no procedure, no bounds. -/
def Context.empty (P R : Type) (zero_regs : R) : Context P R :=
  { start := none, regs := zero_regs, stack_bounds := none }

/-- `Context::swap(out_context, in_context)`.

The guard range for `in_context` is written to the thread-local state
first (`Some((lo, hi))` publishes `(lo, hi)`, `None` publishes
`(0, uint::max_value) = (0, 2^W - 1)`), and only then does
`rust_swap_registers(out_regs, in_regs)` run: it saves the live machine
registers into `out_context.regs` and loads `in_context.regs` as the live
machine state.  The result is the updated `out` context, the (unchanged)
`in` context, the updated thread state, and the event trace in program
order. -/
def Context.swap {P R : Type} (W : Nat) (out_context in_context : Context P R)
    (ts : ThreadState R) :
    Context P R × Context P R × ThreadState R × List SwapEvent :=
  let g : Nat × Nat :=
    match in_context.stack_bounds with
    | some (lo, hi) => (lo, hi)
    | none => (0, 2 ^ W - 1)
  let ts := { ts with guard := g }
  let out' := { out_context with regs := ts.machine_regs }
  let ts := { ts with machine_regs := in_context.regs }
  (out', in_context, ts,
    [SwapEvent.record_stack_bounds g.1 g.2, SwapEvent.rust_swap_registers])

/-- `Context::new(start, stack)`.

`sp` is `stack.end()` (the high end of the region; stacks grow down).
`new_regs()` followed by the transient self-`rust_swap_registers` leaves
the current live machine registers in the fresh register file, which the
call-frame builder then overwrites.  `machine_regs` is that captured live
state, `initCallFrame` the architecture's builder,
`task_start_wrapper` the trampoline's address and `start_addr` the
address of the boxed procedure passed as its argument.
`stack_start`/`stack_end` are `stack.start()`/`stack.end()`.  Bounds are
`None` when `sp == stack.start()` and `Some((stack.start(), sp))`
otherwise. -/
def Context.new {P R : Type} (machine_regs : R)
    (initCallFrame : R → Nat → Nat → Nat → (Nat → Nat) → R × (Nat → Nat))
    (task_start_wrapper start_addr : Nat) (start : P)
    (stack_start stack_end : Nat) (mem : Nat → Nat) :
    Context P R × (Nat → Nat) :=
  let sp := stack_end
  let regs := machine_regs
  let rm := initCallFrame regs task_start_wrapper start_addr sp mem
  let stack_base := stack_start
  let bounds : Option (Nat × Nat) :=
    if sp = stack_base then none else some (stack_base, sp)
  ({ start := some start, regs := rm.1, stack_bounds := bounds }, rm.2)

/-- Spec-side description of the guard range `swap` publishes for a given
`stack_bounds` field: the bounds themselves when present, otherwise the
maximal range `(0, uint::max_value)`. -/
def guard_to_publish (W : Nat) (bounds : Option (Nat × Nat)) : Nat × Nat :=
  match bounds with
  | some (lo, hi) => (lo, hi)
  | none => (0, 2 ^ W - 1)

/-! ### Helper lemmas about `align_down` and `mut_offset` -/

theorem align_down_32_mod16 (sp : Nat) : align_down 32 sp % 16 = 0 := by
  show align_down 32 sp % 2 ^ 4 = 0
  rw [← Nat.and_pow_two_sub_one_eq_mod]
  unfold align_down
  rw [Nat.land_assoc]
  have h : (2 ^ 32 - 16) &&& (2 ^ 4 - 1) = 0 := by decide
  rw [h, Nat.and_zero]

theorem align_down_64_mod16 (sp : Nat) : align_down 64 sp % 16 = 0 := by
  show align_down 64 sp % 2 ^ 4 = 0
  rw [← Nat.and_pow_two_sub_one_eq_mod]
  unfold align_down
  rw [Nat.land_assoc]
  have h : (2 ^ 64 - 16) &&& (2 ^ 4 - 1) = 0 := by decide
  rw [h, Nat.and_zero]

theorem align_down_32_lt (sp : Nat) : align_down 32 sp < 2 ^ 32 :=
  lt_of_le_of_lt Nat.and_le_right (by norm_num)

theorem align_down_64_lt (sp : Nat) : align_down 64 sp < 2 ^ 64 :=
  lt_of_le_of_lt Nat.and_le_right (by norm_num)

theorem align_down_le (W sp : Nat) : align_down W sp ≤ sp :=
  Nat.and_le_left

theorem align_down_32_idem (sp : Nat) :
    align_down 32 (align_down 32 sp) = align_down 32 sp := by
  unfold align_down
  rw [Nat.land_assoc]
  have h : (2 ^ 32 - 16) &&& (2 ^ 32 - 16) = 2 ^ 32 - 16 := by decide
  rw [h]

theorem align_down_64_idem (sp : Nat) :
    align_down 64 (align_down 64 sp) = align_down 64 sp := by
  unfold align_down
  rw [Nat.land_assoc]
  have h : (2 ^ 64 - 16) &&& (2 ^ 64 - 16) = 2 ^ 64 - 16 := by decide
  rw [h]

/-! ### C9 -/

/-- C9: `align_down` clears the low four bits of its argument: the result
is a multiple of 16, is at most the argument, and `align_down` is
idempotent, for both word widths used (32 and 64); and the ARM and MIPS
frame builders derive their stored stack pointer from the very same
16-byte `align_down`, so the 16-byte mask is used on those architectures
too. -/
theorem align_down_mask_props (sp : Nat) :
    (align_down 32 sp % 16 = 0 ∧ align_down 32 sp ≤ sp ∧
      align_down 32 (align_down 32 sp) = align_down 32 sp) ∧
    (align_down 64 sp % 16 = 0 ∧ align_down 64 sp ≤ sp ∧
      align_down 64 (align_down 64 sp) = align_down 64 sp) ∧
    (∀ (regs : List Nat) (fptr arg : Nat) (mem : Nat → Nat),
      regs.length = 32 →
      ((initialize_call_frame_arm regs fptr arg sp mem).1[13]? =
        some (mut_offset 32 4 (align_down 32 sp) (-2)) ∧
      (initialize_call_frame_mips regs fptr arg sp mem).1[29]? =
        some (mut_offset 32 4 (align_down 32 sp) (-2)))) := by
  refine ⟨⟨align_down_32_mod16 sp, align_down_le 32 sp, align_down_32_idem sp⟩,
    ⟨align_down_64_mod16 sp, align_down_le 64 sp, align_down_64_idem sp⟩,
    ?_⟩
  intro regs fptr arg mem h
  constructor
  · simp [initialize_call_frame_arm, List.getElem?_set_ne, h]
  · simp [initialize_call_frame_mips, List.getElem?_set_ne, h]

/-- Witness for C9 at `sp = 1000` with 32-slot zero register files. -/
theorem align_down_mask_props_witness :
    (initialize_call_frame_arm new_regs_arm 3 5 1000 (fun _ => 0)).1[13]? =
      some (mut_offset 32 4 (align_down 32 1000) (-2)) ∧
    (initialize_call_frame_mips new_regs_mips 3 5 1000 (fun _ => 0)).1[29]? =
      some (mut_offset 32 4 (align_down 32 1000) (-2)) :=
  ⟨((align_down_mask_props 1000).2.2 new_regs_arm 3 5 (fun _ => 0)
      (by decide)).1,
   ((align_down_mask_props 1000).2.2 new_regs_mips 3 5 (fun _ => 0)
      (by decide)).2⟩

/-! ### C5 -/

/-- C5: on every architecture the stack pointer written into the register
file is aligned once the reserved sentinel/argument slots are accounted
for: x86 reserves 20 bytes (four argument words and the sentinel) below a
16-byte boundary, x86_64 reserves 8 bytes (the sentinel) below a 16-byte
boundary, and the ARM/MIPS stack pointers are themselves 8-byte aligned
(two 4-byte words below a 16-byte boundary). -/
theorem call_frame_sp_alignment
    (rx : RegistersX86) (r64 ra rm : List Nat) (fptr arg sp : Nat)
    (mem : Nat → Nat)
    (h64 : r64.length = 22 ∨ r64.length = 34)
    (ha : ra.length = 32) (hm : rm.length = 32) :
    ((initialize_call_frame_x86 rx fptr arg sp mem).1.esp + 20) % 16 = 0 ∧
    (∃ v, (initialize_call_frame_x86_64 r64 fptr arg sp mem).1[RUSTRT_RSP]? =
        some v ∧ (v + 8) % 16 = 0) ∧
    (∃ v, (initialize_call_frame_arm ra fptr arg sp mem).1[13]? = some v ∧
        v % 8 = 0) ∧
    (∃ v, (initialize_call_frame_mips rm fptr arg sp mem).1[29]? = some v ∧
        v % 8 = 0) := by
  have h16 := align_down_32_mod16 sp
  have hlt := align_down_32_lt sp
  have h16' := align_down_64_mod16 sp
  have hlt' := align_down_64_lt sp
  refine ⟨?_, ?_, ?_, ?_⟩
  · simp only [initialize_call_frame_x86, mut_offset]
    norm_num
    omega
  · refine ⟨mut_offset 64 8 (align_down 64 sp) (-1), ?_, ?_⟩
    · rcases h64 with h | h <;>
        simp [initialize_call_frame_x86_64, RUSTRT_ARG0, RUSTRT_RSP,
          RUSTRT_IP, RUSTRT_RBP, List.getElem?_set_ne, h]
    · simp only [mut_offset]
      norm_num
      omega
  · refine ⟨mut_offset 32 4 (align_down 32 sp) (-2), ?_, ?_⟩
    · simp [initialize_call_frame_arm, List.getElem?_set_ne, ha]
    · simp only [mut_offset]
      norm_num
      omega
  · refine ⟨mut_offset 32 4 (align_down 32 sp) (-2), ?_, ?_⟩
    · simp [initialize_call_frame_mips, List.getElem?_set_ne, hm]
    · simp only [mut_offset]
      norm_num
      omega

/-- Witness for C5 at concrete inputs (`fptr = 3`, `arg = 5`,
`sp = 1000`, zeroed register files, zero memory). -/
theorem call_frame_sp_alignment_witness :
    ((initialize_call_frame_x86 new_regs_x86 3 5 1000 (fun _ => 0)).1.esp
        + 20) % 16 = 0 ∧
    (∃ v, (initialize_call_frame_x86_64 new_regs_x86_64 3 5 1000
        (fun _ => 0)).1[RUSTRT_RSP]? = some v ∧ (v + 8) % 16 = 0) ∧
    (∃ v, (initialize_call_frame_arm new_regs_arm 3 5 1000
        (fun _ => 0)).1[13]? = some v ∧ v % 8 = 0) ∧
    (∃ v, (initialize_call_frame_mips new_regs_mips 3 5 1000
        (fun _ => 0)).1[29]? = some v ∧ v % 8 = 0) :=
  call_frame_sp_alignment new_regs_x86 new_regs_x86_64 new_regs_arm
    new_regs_mips 3 5 1000 (fun _ => 0) (Or.inl (by decide)) (by decide)
    (by decide)

/-! ### C1, C2, C8 — the swap operation -/

/-- Concrete sample context used to instantiate the swap theorems. -/
def sampleCtx (b : Option (Nat × Nat)) : Context Unit Unit :=
  { start := none, regs := (), stack_bounds := b }

/-- Concrete sample thread state used to instantiate the swap theorems. -/
def sampleTS : ThreadState Unit :=
  { machine_regs := (), guard := (0, 0) }

/-- C1: `Context::swap(out, in)` publishes exactly `in.stack_bounds` as
the thread-local guard range when the bounds are present, and the
maximal range `(0, uint::max_value) = (0, 2^W - 1)` when they are
`None`; in both cases the publication is the first event of the call. -/
theorem swap_publishes_guard_range {P R : Type} (W : Nat)
    (out_context in_context : Context P R) (ts : ThreadState R)
    (lo hi : Nat) :
    (in_context.stack_bounds = some (lo, hi) →
      (Context.swap W out_context in_context ts).2.2.1.guard = (lo, hi) ∧
      (Context.swap W out_context in_context ts).2.2.2.head? =
        some (SwapEvent.record_stack_bounds lo hi)) ∧
    (in_context.stack_bounds = none →
      (Context.swap W out_context in_context ts).2.2.1.guard =
        (0, 2 ^ W - 1) ∧
      (Context.swap W out_context in_context ts).2.2.2.head? =
        some (SwapEvent.record_stack_bounds 0 (2 ^ W - 1))) := by
  constructor
  · intro h
    simp [Context.swap, h]
  · intro h
    simp [Context.swap, h]

/-- Witness for C1: swapping into bounds `some (5, 9)` publishes
`(5, 9)`; swapping into bounds `none` publishes `(0, 2^32 - 1)`. -/
theorem swap_publishes_guard_range_witness :
    ((Context.swap 32 (sampleCtx none) (sampleCtx (some (5, 9)))
        sampleTS).2.2.1.guard = (5, 9) ∧
      (Context.swap 32 (sampleCtx none) (sampleCtx (some (5, 9)))
        sampleTS).2.2.2.head? =
        some (SwapEvent.record_stack_bounds 5 9)) ∧
    ((Context.swap 32 (sampleCtx none) (sampleCtx none)
        sampleTS).2.2.1.guard = (0, 2 ^ 32 - 1) ∧
      (Context.swap 32 (sampleCtx none) (sampleCtx none)
        sampleTS).2.2.2.head? =
        some (SwapEvent.record_stack_bounds 0 (2 ^ 32 - 1))) :=
  ⟨(swap_publishes_guard_range 32 (sampleCtx none)
      (sampleCtx (some (5, 9))) sampleTS 5 9).1 rfl,
   (swap_publishes_guard_range 32 (sampleCtx none) (sampleCtx none)
      sampleTS 5 9).2 rfl⟩

/-- C2: in the event trace of `Context::swap`, every occurrence of the
register transfer `rust_swap_registers` is strictly preceded by the
publication of the guard range determined by `in.stack_bounds`. -/
theorem guard_publication_precedes_transfer {P R : Type} (W : Nat)
    (out_context in_context : Context P R) (ts : ThreadState R) (j : Nat)
    (hj : (Context.swap W out_context in_context ts).2.2.2[j]? =
      some SwapEvent.rust_swap_registers) :
    ∃ i, i < j ∧
      (Context.swap W out_context in_context ts).2.2.2[i]? =
        some (SwapEvent.record_stack_bounds
          (guard_to_publish W in_context.stack_bounds).1
          (guard_to_publish W in_context.stack_bounds).2) := by
  rcases h : in_context.stack_bounds with _ | ⟨lo, hi⟩ <;>
    simp only [Context.swap, guard_to_publish, h] at hj ⊢ <;>
    match j with
    | 0 => simp at hj
    | 1 => exact ⟨0, Nat.zero_lt_one, rfl⟩
    | n + 2 => simp at hj

/-- Witness for C2: in a concrete swap the transfer sits at index 1 and
the matching guard publication at index 0. -/
theorem guard_publication_precedes_transfer_witness :
    ∃ i, i < 1 ∧
      (Context.swap 32 (sampleCtx none) (sampleCtx (some (5, 9)))
        sampleTS).2.2.2[i]? =
        some (SwapEvent.record_stack_bounds
          (guard_to_publish 32 (sampleCtx (some (5, 9))).stack_bounds).1
          (guard_to_publish 32 (sampleCtx (some (5, 9))).stack_bounds).2) :=
  guard_publication_precedes_transfer 32 (sampleCtx none)
    (sampleCtx (some (5, 9))) sampleTS 1 rfl

/-- C8: `Context::swap(out, in)` saves the live machine registers into
`out.regs` but leaves `out.start` and `out.stack_bounds` unchanged, and
leaves `in` entirely unchanged (every field). -/
theorem swap_frame_effect {P R : Type} (W : Nat)
    (out_context in_context : Context P R) (ts : ThreadState R) :
    (Context.swap W out_context in_context ts).1.start =
      out_context.start ∧
    (Context.swap W out_context in_context ts).1.stack_bounds =
      out_context.stack_bounds ∧
    (Context.swap W out_context in_context ts).1.regs =
      ts.machine_regs ∧
    (Context.swap W out_context in_context ts).2.1 = in_context := by
  refine ⟨?_, ?_, ?_, ?_⟩ <;> rfl

/-! ### C3 -/

/-- A concrete x86_64 `Context::new` call: captured machine registers all
zero, trampoline address 1000, boxed-procedure address 500, stack region
`[0, 32]`, zero memory. -/
def c3_example : Context Unit (List Nat) :=
  (Context.new new_regs_x86_64 initialize_call_frame_x86_64 1000 500 ()
    0 32 (fun _ => 0)).1

/-- Counterexample to C3 as stated: for the stack region `[0, 32]` on
x86_64 the resulting initial stack pointer of the built frame (the value
in the `RUSTRT_RSP` slot) is 24, which differs from the low end 0, yet
the recorded bounds are `some (0, 32)` — built from the raw top-of-region
pointer `stack.end() = 32` — and not `some (0, 24)` as the claim
requires. -/
theorem stack_bounds_claim_counterexample :
    c3_example.regs[RUSTRT_RSP]? = some 24 ∧ (24 : Nat) ≠ 0 ∧
    c3_example.stack_bounds = some (0, 32) ∧
    c3_example.stack_bounds ≠ some (0, 24) := by decide

/-- C3 (amended): `Context::new` computes `stack_bounds` from the raw
top-of-region stack pointer `sp = stack.end()` taken before frame
construction, not from the frame builder's resulting stack pointer:
bounds are `none` when `stack.end() = stack.start()` and
`some (stack.start(), stack.end())` otherwise. -/
theorem stack_bounds_from_raw_sp {P R : Type} (machine_regs : R)
    (initCallFrame : R → Nat → Nat → Nat → (Nat → Nat) → R × (Nat → Nat))
    (wrapper arg : Nat) (start : P) (lo hi : Nat) (mem : Nat → Nat) :
    (Context.new machine_regs initCallFrame wrapper arg start lo hi
      mem).1.stack_bounds =
      if hi = lo then none else some (lo, hi) := rfl

/-! ### C7 -/

/-- C7: the ARM builder writes the argument into register slot 0, the
resumed stack pointer into slot 13 and the entry address into slot 14;
the MIPS builder writes the argument into slot 4, the resumed stack
pointer into slot 29 and the entry address into both slot 25 and
slot 31. -/
theorem arm_mips_slot_indices (ra rm : List Nat) (fptr arg sp : Nat)
    (mem : Nat → Nat) (ha : ra.length = 32) (hm : rm.length = 32) :
    (initialize_call_frame_arm ra fptr arg sp mem).1[0]? = some arg ∧
    (initialize_call_frame_arm ra fptr arg sp mem).1[13]? =
      some (mut_offset 32 4 (align_down 32 sp) (-2)) ∧
    (initialize_call_frame_arm ra fptr arg sp mem).1[14]? = some fptr ∧
    (initialize_call_frame_mips rm fptr arg sp mem).1[4]? = some arg ∧
    (initialize_call_frame_mips rm fptr arg sp mem).1[29]? =
      some (mut_offset 32 4 (align_down 32 sp) (-2)) ∧
    (initialize_call_frame_mips rm fptr arg sp mem).1[25]? = some fptr ∧
    (initialize_call_frame_mips rm fptr arg sp mem).1[31]? = some fptr := by
  refine ⟨?_, ?_, ?_, ?_, ?_, ?_, ?_⟩ <;>
    simp [initialize_call_frame_arm, initialize_call_frame_mips,
      List.getElem?_set_ne, ha, hm]

/-- Witness for C7 at zeroed 32-slot register files, `fptr = 3`,
`arg = 5`, `sp = 1000`. -/
theorem arm_mips_slot_indices_witness :
    (initialize_call_frame_arm new_regs_arm 3 5 1000 (fun _ => 0)).1[0]? =
      some 5 ∧
    (initialize_call_frame_arm new_regs_arm 3 5 1000 (fun _ => 0)).1[13]? =
      some (mut_offset 32 4 (align_down 32 1000) (-2)) ∧
    (initialize_call_frame_arm new_regs_arm 3 5 1000 (fun _ => 0)).1[14]? =
      some 3 ∧
    (initialize_call_frame_mips new_regs_mips 3 5 1000 (fun _ => 0)).1[4]? =
      some 5 ∧
    (initialize_call_frame_mips new_regs_mips 3 5 1000 (fun _ => 0)).1[29]? =
      some (mut_offset 32 4 (align_down 32 1000) (-2)) ∧
    (initialize_call_frame_mips new_regs_mips 3 5 1000 (fun _ => 0)).1[25]? =
      some 3 ∧
    (initialize_call_frame_mips new_regs_mips 3 5 1000 (fun _ => 0)).1[31]? =
      some 3 :=
  arm_mips_slot_indices new_regs_arm new_regs_mips 3 5 1000 (fun _ => 0)
    (by decide) (by decide)

/-! ### C10 -/

/-- C10: the four fixed x86_64 register-slot indices are in bounds for
both register-array lengths (22 on non-windows, 34 on windows), and the
x86_64 builder never changes the length of the register array, so every
slot write is in-bounds. -/
theorem x86_64_slot_indices_in_bounds :
    (RUSTRT_ARG0 < new_regs_x86_64.length ∧
      RUSTRT_RSP < new_regs_x86_64.length ∧
      RUSTRT_IP < new_regs_x86_64.length ∧
      RUSTRT_RBP < new_regs_x86_64.length) ∧
    (RUSTRT_ARG0 < new_regs_x86_64_windows.length ∧
      RUSTRT_RSP < new_regs_x86_64_windows.length ∧
      RUSTRT_IP < new_regs_x86_64_windows.length ∧
      RUSTRT_RBP < new_regs_x86_64_windows.length) ∧
    (∀ (regs : List Nat) (fptr arg sp : Nat) (mem : Nat → Nat),
      (initialize_call_frame_x86_64 regs fptr arg sp mem).1.length =
        regs.length) := by
  refine ⟨by decide, by decide, ?_⟩
  intro regs fptr arg sp mem
  simp [initialize_call_frame_x86_64]

/-! ### More `mut_offset` helper lemmas -/

theorem mut_offset_32_4_lt (p : Nat) (c : Int) :
    mut_offset 32 4 p c < 2 ^ 32 := by
  simp only [mut_offset]
  norm_num
  omega

theorem mut_offset_32_4_succ_pred (p : Nat) (hp : p < 2 ^ 32) :
    mut_offset 32 4 (mut_offset 32 4 p (-1)) 1 = p := by
  simp only [mut_offset]
  norm_num
  omega

theorem mut_offset_32_4_pred_ne (p : Nat) :
    p ≠ mut_offset 32 4 p (-1) := by
  simp only [mut_offset]
  norm_num
  omega

/-! ### C6 -/

/-- C6: every builder stores a zero sentinel "return address" at the
final stack-pointer location it records, and on 32-bit x86 the argument
word sits one word (4 bytes) above that sentinel. -/
theorem sentinel_and_stack_arg
    (rx : RegistersX86) (r64 ra rm : List Nat) (fptr arg sp : Nat)
    (mem : Nat → Nat)
    (h64 : r64.length = 22 ∨ r64.length = 34)
    (ha : ra.length = 32) (hm : rm.length = 32) :
    ((initialize_call_frame_x86 rx fptr arg sp mem).2
        (initialize_call_frame_x86 rx fptr arg sp mem).1.esp = 0 ∧
      (initialize_call_frame_x86 rx fptr arg sp mem).2
        (mut_offset 32 4
          (initialize_call_frame_x86 rx fptr arg sp mem).1.esp 1) = arg) ∧
    (∃ s, (initialize_call_frame_x86_64 r64 fptr arg sp mem).1[RUSTRT_RSP]? =
        some s ∧
      (initialize_call_frame_x86_64 r64 fptr arg sp mem).2 s = 0) ∧
    (∃ s, (initialize_call_frame_arm ra fptr arg sp mem).1[13]? = some s ∧
      (initialize_call_frame_arm ra fptr arg sp mem).2 s = 0) ∧
    (∃ s, (initialize_call_frame_mips rm fptr arg sp mem).1[29]? = some s ∧
      (initialize_call_frame_mips rm fptr arg sp mem).2 s = 0) := by
  have hlt : mut_offset 32 4 (align_down 32 sp) (-4) < 2 ^ 32 :=
    mut_offset_32_4_lt _ _
  refine ⟨⟨?_, ?_⟩, ?_, ?_, ?_⟩
  · simp [initialize_call_frame_x86, writeMem]
  · simp only [initialize_call_frame_x86, writeMem]
    rw [mut_offset_32_4_succ_pred _ hlt,
      if_neg (mut_offset_32_4_pred_ne _), if_pos rfl]
  · refine ⟨mut_offset 64 8 (align_down 64 sp) (-1), ?_, ?_⟩
    · rcases h64 with h | h <;>
        simp [initialize_call_frame_x86_64, RUSTRT_ARG0, RUSTRT_RSP,
          RUSTRT_IP, RUSTRT_RBP, List.getElem?_set_ne, h]
    · simp [initialize_call_frame_x86_64, writeMem]
  · refine ⟨mut_offset 32 4 (align_down 32 sp) (-2), ?_, ?_⟩
    · simp [initialize_call_frame_arm, List.getElem?_set_ne, ha]
    · simp [initialize_call_frame_arm, writeMem]
  · refine ⟨mut_offset 32 4 (align_down 32 sp) (-2), ?_, ?_⟩
    · simp [initialize_call_frame_mips, List.getElem?_set_ne, hm]
    · simp [initialize_call_frame_mips, writeMem]

/-- Witness for C6 at concrete inputs (`fptr = 3`, `arg = 5`,
`sp = 1000`, zeroed register files, zero memory). -/
theorem sentinel_and_stack_arg_witness :
    ((initialize_call_frame_x86 new_regs_x86 3 5 1000 (fun _ => 0)).2
        (initialize_call_frame_x86 new_regs_x86 3 5 1000
          (fun _ => 0)).1.esp = 0 ∧
      (initialize_call_frame_x86 new_regs_x86 3 5 1000 (fun _ => 0)).2
        (mut_offset 32 4
          (initialize_call_frame_x86 new_regs_x86 3 5 1000
            (fun _ => 0)).1.esp 1) = 5) ∧
    (∃ s, (initialize_call_frame_x86_64 new_regs_x86_64 3 5 1000
        (fun _ => 0)).1[RUSTRT_RSP]? = some s ∧
      (initialize_call_frame_x86_64 new_regs_x86_64 3 5 1000
        (fun _ => 0)).2 s = 0) ∧
    (∃ s, (initialize_call_frame_arm new_regs_arm 3 5 1000
        (fun _ => 0)).1[13]? = some s ∧
      (initialize_call_frame_arm new_regs_arm 3 5 1000
        (fun _ => 0)).2 s = 0) ∧
    (∃ s, (initialize_call_frame_mips new_regs_mips 3 5 1000
        (fun _ => 0)).1[29]? = some s ∧
      (initialize_call_frame_mips new_regs_mips 3 5 1000
        (fun _ => 0)).2 s = 0) :=
  sentinel_and_stack_arg new_regs_x86 new_regs_x86_64 new_regs_arm
    new_regs_mips 3 5 1000 (fun _ => 0) (Or.inl (by decide)) (by decide)
    (by decide)

/-! ### C4 -/

/-- Counterexample to C4 as stated: starting from an ARM register file
whose 32 slots all hold 7, `initialize_call_frame` leaves every slot
nonzero (slots 0, 13 and 14 get the nonzero argument 9, stack pointer 88
and entry address 5; every other slot keeps 7).  In particular the ARM
frame-pointer slot r11 still holds 7, so no frame/base-pointer slot is
zeroed on ARM. -/
theorem arm_keeps_fp_slot_counterexample :
    ((initialize_call_frame_arm (List.replicate 32 7) 5 9 100
        (fun _ => 0)).1.all (fun v => v != 0)) = true ∧
    (initialize_call_frame_arm (List.replicate 32 7) 5 9 100
        (fun _ => 0)).1[11]? = some 7 := by decide

/-- C4 (amended): on 32-bit x86 and on x86_64 (both sub-variants) the
instruction-pointer slot holds `fptr`, the first-argument slot (the
stack argument word on x86) holds `arg`, and the base-pointer slot is
zeroed; on ARM and MIPS the instruction-pointer slot(s) hold `fptr` and
the argument slot holds `arg`, but no frame-pointer slot is zeroed:
every slot other than the written argument/stack-pointer/entry slots
retains its input value. -/
theorem call_frame_core_slots
    (rx : RegistersX86) (r64 ra rm : List Nat) (fptr arg sp : Nat)
    (mem : Nat → Nat)
    (h64 : r64.length = 22 ∨ r64.length = 34)
    (ha : ra.length = 32) (hm : rm.length = 32) :
    ((initialize_call_frame_x86 rx fptr arg sp mem).1.eip = fptr ∧
      (initialize_call_frame_x86 rx fptr arg sp mem).1.ebp = 0 ∧
      (initialize_call_frame_x86 rx fptr arg sp mem).2
        (mut_offset 32 4
          (initialize_call_frame_x86 rx fptr arg sp mem).1.esp 1) = arg) ∧
    ((initialize_call_frame_x86_64 r64 fptr arg sp mem).1[RUSTRT_IP]? =
        some fptr ∧
      (initialize_call_frame_x86_64 r64 fptr arg sp mem).1[RUSTRT_ARG0]? =
        some arg ∧
      (initialize_call_frame_x86_64 r64 fptr arg sp mem).1[RUSTRT_RBP]? =
        some 0) ∧
    ((initialize_call_frame_arm ra fptr arg sp mem).1[14]? = some fptr ∧
      (initialize_call_frame_arm ra fptr arg sp mem).1[0]? = some arg ∧
      (∀ i, i ≠ 0 → i ≠ 13 → i ≠ 14 →
        (initialize_call_frame_arm ra fptr arg sp mem).1[i]? = ra[i]?)) ∧
    ((initialize_call_frame_mips rm fptr arg sp mem).1[25]? = some fptr ∧
      (initialize_call_frame_mips rm fptr arg sp mem).1[31]? = some fptr ∧
      (initialize_call_frame_mips rm fptr arg sp mem).1[4]? = some arg ∧
      (∀ i, i ≠ 4 → i ≠ 29 → i ≠ 25 → i ≠ 31 →
        (initialize_call_frame_mips rm fptr arg sp mem).1[i]? = rm[i]?)) := by
  have hlt : mut_offset 32 4 (align_down 32 sp) (-4) < 2 ^ 32 :=
    mut_offset_32_4_lt _ _
  refine ⟨⟨rfl, rfl, ?_⟩, ?_, ⟨?_, ?_, ?_⟩, ⟨?_, ?_, ?_, ?_⟩⟩
  · simp only [initialize_call_frame_x86, writeMem]
    rw [mut_offset_32_4_succ_pred _ hlt,
      if_neg (mut_offset_32_4_pred_ne _), if_pos rfl]
  · rcases h64 with h | h <;>
      refine ⟨?_, ?_, ?_⟩ <;>
      simp [initialize_call_frame_x86_64, RUSTRT_ARG0, RUSTRT_RSP,
        RUSTRT_IP, RUSTRT_RBP, List.getElem?_set_ne, h]
  · simp [initialize_call_frame_arm, List.getElem?_set_ne, ha]
  · simp [initialize_call_frame_arm, List.getElem?_set_ne, ha]
  · intro i h0 h13 h14
    simp only [initialize_call_frame_arm]
    rw [List.getElem?_set_ne (by omega), List.getElem?_set_ne (by omega),
      List.getElem?_set_ne (by omega)]
  · simp [initialize_call_frame_mips, List.getElem?_set_ne, hm]
  · simp [initialize_call_frame_mips, List.getElem?_set_ne, hm]
  · simp [initialize_call_frame_mips, List.getElem?_set_ne, hm]
  · intro i h4 h29 h25 h31
    simp only [initialize_call_frame_mips]
    rw [List.getElem?_set_ne (by omega), List.getElem?_set_ne (by omega),
      List.getElem?_set_ne (by omega), List.getElem?_set_ne (by omega)]

/-- Witness for C4 (amended) at concrete inputs (`fptr = 3`, `arg = 5`,
`sp = 1000`, zeroed register files, zero memory), checking one
representative conjunct per architecture. -/
theorem call_frame_core_slots_witness :
    (initialize_call_frame_x86 new_regs_x86 3 5 1000 (fun _ => 0)).1.eip =
      3 ∧
    (initialize_call_frame_x86_64 new_regs_x86_64 3 5 1000
      (fun _ => 0)).1[RUSTRT_RBP]? = some 0 ∧
    (initialize_call_frame_arm new_regs_arm 3 5 1000
      (fun _ => 0)).1[11]? = new_regs_arm[11]? ∧
    (initialize_call_frame_mips new_regs_mips 3 5 1000
      (fun _ => 0)).1[30]? = new_regs_mips[30]? :=
  ⟨(call_frame_core_slots new_regs_x86 new_regs_x86_64 new_regs_arm
      new_regs_mips 3 5 1000 (fun _ => 0) (Or.inl (by decide)) (by decide)
      (by decide)).1.1,
   (call_frame_core_slots new_regs_x86 new_regs_x86_64 new_regs_arm
      new_regs_mips 3 5 1000 (fun _ => 0) (Or.inl (by decide)) (by decide)
      (by decide)).2.1.2.2,
   (call_frame_core_slots new_regs_x86 new_regs_x86_64 new_regs_arm
      new_regs_mips 3 5 1000 (fun _ => 0) (Or.inl (by decide)) (by decide)
      (by decide)).2.2.1.2.2 11 (by decide) (by decide) (by decide),
   (call_frame_core_slots new_regs_x86 new_regs_x86_64 new_regs_arm
      new_regs_mips 3 5 1000 (fun _ => 0) (Or.inl (by decide)) (by decide)
      (by decide)).2.2.2.2.2.2 30 (by decide) (by decide) (by decide)
      (by decide)⟩

end GreenContext
